import Mathlib

/-!
Verification of the crudapi repository (github.com/sauerbraten/crudapi).

The repository bundles several revisions of the same small library. The
embedding below covers the parts the claims are about:

* storage.go / mapstorage.go: the StorageError enumeration and the
  MapStorage backend (Go maps are modelled as association lists, the
  clock read by Create is an explicit parameter);
* guard.go and the guarded dispatcher revision of api.go (MountAPI with
  a Guard): Authenticate/Authorize short-circuiting, the malformed-json
  path, and per-handler storage invocation (mutation is explicit state
  passing, and each handler result records whether storage was called);
* the NewAPI revision of api.go: the get handler's StorageError switch,
  the OPTIONS handlers, and the path-prefix normalization (whose
  out-of-range string index is modelled as Option.none);
* example/example_storage.go (second revision): the MapStorage whose
  Get reports resourceNotFound for both failure cases.
-/

namespace Crud

/-! ### Go maps as association lists

Go's `map[string]V` is modelled as a `List (String × V)` with unique
keys accessed through the three helpers below. `alInsert` models
`m[k] = v` (replace or append), `alErase` models `delete(m, k)`. -/

def alLookup {β : Type} : List (String × β) → String → Option β
  | [], _ => Option.none
  | (k, v) :: rest, key => if k = key then some v else alLookup rest key

def alInsert {β : Type} : List (String × β) → String → β → List (String × β)
  | [], key, val => [(key, val)]
  | (k, v) :: rest, key, val =>
    if k = key then (key, val) :: rest else (k, v) :: alInsert rest key val

def alErase {β : Type} : List (String × β) → String → List (String × β)
  | [], _ => []
  | (k, v) :: rest, key => if k = key then rest else (k, v) :: alErase rest key

theorem alLookup_alInsert_self {β : Type} (l : List (String × β)) (k : String) (v : β) :
    alLookup (alInsert l k v) k = some v := by
  induction l with
  | nil => simp [alInsert, alLookup]
  | cons hd tl ih =>
    obtain ⟨k', v'⟩ := hd
    by_cases h : k' = k
    · simp [alInsert, h, alLookup]
    · simp [alInsert, h, alLookup, ih]

theorem alInsert_alInsert_self {β : Type} (l : List (String × β)) (k : String) (v w : β) :
    alInsert (alInsert l k v) k w = alInsert l k w := by
  induction l with
  | nil => simp [alInsert]
  | cons hd tl ih =>
    obtain ⟨k', v'⟩ := hd
    by_cases h : k' = k
    · simp [alInsert, h]
    · simp [alInsert, h, ih]

/-! ### storage.go: the StorageError enumeration

StorageError is an iota enumeration whose zero value (`None`, "0 means
no error") is what a bare `return` of a named `err` result yields. -/

inductive StorageError
  | none
  | internalError
  | resourceExists
  | resourceNotFound
  | kindExists
  | kindNotFound
deriving DecidableEq, Repr

/-- The backing structure of MapStorage: `map[string]map[string]V`
(collection name to resource-id-to-resource map). -/
abbrev MapData (α : Type) := List (String × List (String × α))

namespace MapStorage

/-- mapstorage.go Create. The id is `strconv.FormatInt(time.Now().Unix(), 10)`;
the clock read is the explicit `now` parameter, formatted in base 10 by
`toString`. When the kind is missing the Go code does a bare `return`,
so the named results keep their zero values: id "" and err `None` (not
KindNotFound). -/
def Create {α : Type} (now : Int) (kind : String) (resource : α) (data : MapData α) :
    (String × StorageError) × MapData α :=
  match alLookup data kind with
  | Option.none => (("", StorageError.none), data)
  | some m =>
    let id := toString now
    ((id, StorageError.none), alInsert data kind (alInsert m id resource))

/-- mapstorage.go Get: KindNotFound if the kind is missing, then
ResourceNotFound if the id is missing. Purely a read, so no state is
returned. -/
def Get {α : Type} (kind id : String) (data : MapData α) : Option α × StorageError :=
  match alLookup data kind with
  | Option.none => (Option.none, StorageError.kindNotFound)
  | some m =>
    match alLookup m id with
    | Option.none => (Option.none, StorageError.resourceNotFound)
    | some r => (some r, StorageError.none)

/-- mapstorage.go GetAll: KindNotFound if the kind is missing, otherwise
the values of the kind's map. Purely a read. -/
def GetAll {α : Type} (kind : String) (data : MapData α) : List α × StorageError :=
  match alLookup data kind with
  | Option.none => ([], StorageError.kindNotFound)
  | some m => (m.map Prod.snd, StorageError.none)

/-- mapstorage.go Update: checks the kind, then the resource, then
assigns `ms.data[kind][id] = resource`. -/
def Update {α : Type} (kind id : String) (resource : α) (data : MapData α) :
    StorageError × MapData α :=
  match alLookup data kind with
  | Option.none => (StorageError.kindNotFound, data)
  | some m =>
    match alLookup m id with
    | Option.none => (StorageError.resourceNotFound, data)
    | some _ => (StorageError.none, alInsert data kind (alInsert m id resource))

/-- mapstorage.go Delete: checks the kind, then the resource, then
`delete(ms.data[kind], id)`. -/
def Delete {α : Type} (kind id : String) (data : MapData α) :
    StorageError × MapData α :=
  match alLookup data kind with
  | Option.none => (StorageError.kindNotFound, data)
  | some m =>
    match alLookup m id with
    | Option.none => (StorageError.resourceNotFound, data)
    | some _ => (StorageError.none, alInsert data kind (alErase m id))

/-- mapstorage.go DeleteAll: checks the kind, then deletes every entry
of the kind's map (the range-and-delete loop leaves the empty map under
the same kind). -/
def DeleteAll {α : Type} (kind : String) (data : MapData α) :
    StorageError × MapData α :=
  match alLookup data kind with
  | Option.none => (StorageError.kindNotFound, data)
  | some _ => (StorageError.none, alInsert data kind [])

end MapStorage

/-! ### guard.go: actions and the Guard interface -/

/-- A CRUD action (guard.go: `type Action string`). -/
abbrev Action := String

def ActionCreate : Action := "create"

def ActionGet : Action := "get"

def ActionGetAll : Action := "get all"

def ActionUpdate : Action := "update"

def ActionDelete : Action := "delete"

def ActionDeleteAll : Action := "delete all"

/-- guard.go Guard. `authenticate params` returns
(ok, client, errorMessage); `authorize client action kind` returns
(ok, errorMessage). The query-parameter type is the parameter π. -/
structure Guard (π : Type) where
  authenticate : π → Bool × String × String
  authorize : String → Action → String → Bool × String

/-- guard.go defaultGuard: allows everyone to do everything. -/
def defaultGuard (π : Type) : Guard π :=
  ⟨fun _ => (true, "", ""), fun _ _ _ => (true, "")⟩

/-! ### The guarded dispatcher revision of api.go (MountAPI with a Guard) -/

/-- api.go apiResponse: the JSON envelope {error, id, result}. The
result payload type is the parameter τ (`interface{}` in Go, `nil`
modelled as Option.none). -/
structure ApiResponse (τ : Type) where
  errorMessage : String
  id : String
  result : Option τ
deriving DecidableEq, Repr

/-- Modelled from the spec: the StorageResponse value returned by the
Storage methods of the guarded-dispatcher revision is not under src/
(the handlers read `stoResp.StatusCode` and `stoResp.ErrorMessage`).
Spec section 4.1: a status response pairs a numeric HTTP status code
with an error string (empty string = success). -/
structure StorageResponse where
  statusCode : Nat
  errorMessage : String
deriving DecidableEq, Repr

/-- The Storage interface as used by the guarded dispatcher: Create,
Get, GetAll, Update, Delete, DeleteAll, each returning a
StorageResponse. Resources have type ρ; the backend's mutable state has
type σ and is passed explicitly (Get and GetAll are reads). -/
structure Storage (ρ σ : Type) where
  create : String → ρ → σ → (String × StorageResponse) × σ
  get : String → String → σ → Option ρ × StorageResponse
  getAll : String → σ → List ρ × StorageResponse
  update : String → String → ρ → σ → StorageResponse × σ
  delete : String → String → σ → StorageResponse × σ
  deleteAll : String → σ → StorageResponse × σ

/-- What a handler call produces: the HTTP status written, the encoded
envelope, whether any Storage method was invoked, and the backend state
afterwards. -/
structure HandlerResult (τ σ : Type) where
  status : Nat
  body : ApiResponse τ
  storageCalled : Bool
  state : σ
deriving DecidableEq, Repr

/-- api.go authenticateAndAuthorize: on failed authentication writes
401 and the envelope {errorMessage}, on failed authorization writes
403 and the envelope {errorMessage}; `some (status, envelope)` models
the written denial response (Go: ok = false), Option.none models ok. -/
def authenticateAndAuthorize {π τ : Type} (g : Guard π) (action : Action)
    (kind : String) (params : π) : Option (Nat × ApiResponse τ) :=
  let authn := g.authenticate params
  if !authn.1 then
    some (401, ⟨authn.2.2, "", Option.none⟩)
  else
    let authz := g.authorize authn.2.1 action kind
    if !authz.1 then
      some (403, ⟨authz.2, "", Option.none⟩)
    else
      Option.none

/-- api.go create (guarded revision): initHandling (authenticate and
authorize ActionCreate), then decode the body (`Option.none` models a
body that is not decodable JSON: 400 "malformed json"), then
s.Create. -/
def create {π ρ σ : Type} (g : Guard π) (sto : Storage ρ σ) (kind : String)
    (params : π) (body : Option ρ) (st : σ) : HandlerResult ρ σ :=
  match authenticateAndAuthorize g ActionCreate kind params with
  | some denial => ⟨denial.1, denial.2, false, st⟩
  | Option.none =>
    match body with
    | Option.none => ⟨400, ⟨"malformed json", "", Option.none⟩, false, st⟩
    | some resource =>
      let r := sto.create kind resource st
      ⟨r.1.2.statusCode, ⟨r.1.2.errorMessage, r.1.1, Option.none⟩, true, r.2⟩

/-- api.go getAll (guarded revision). -/
def getAll {π ρ σ : Type} (g : Guard π) (sto : Storage ρ σ) (kind : String)
    (params : π) (st : σ) : HandlerResult (List ρ) σ :=
  match authenticateAndAuthorize g ActionGetAll kind params with
  | some denial => ⟨denial.1, denial.2, false, st⟩
  | Option.none =>
    let r := sto.getAll kind st
    ⟨r.2.statusCode, ⟨r.2.errorMessage, "", some r.1⟩, true, st⟩

/-- api.go get (guarded revision). -/
def get {π ρ σ : Type} (g : Guard π) (sto : Storage ρ σ) (kind id : String)
    (params : π) (st : σ) : HandlerResult ρ σ :=
  match authenticateAndAuthorize g ActionGet kind params with
  | some denial => ⟨denial.1, denial.2, false, st⟩
  | Option.none =>
    let r := sto.get kind id st
    ⟨r.2.statusCode, ⟨r.2.errorMessage, "", r.1⟩, true, st⟩

/-- api.go update (guarded revision): auth, then decode the body
(Option.none models malformed JSON: 400), then s.Update. -/
def update {π ρ σ : Type} (g : Guard π) (sto : Storage ρ σ) (kind id : String)
    (params : π) (body : Option ρ) (st : σ) : HandlerResult ρ σ :=
  match authenticateAndAuthorize g ActionUpdate kind params with
  | some denial => ⟨denial.1, denial.2, false, st⟩
  | Option.none =>
    match body with
    | Option.none => ⟨400, ⟨"malformed json", "", Option.none⟩, false, st⟩
    | some resource =>
      let r := sto.update kind id resource st
      ⟨r.1.statusCode, ⟨r.1.errorMessage, "", Option.none⟩, true, r.2⟩

/-- api.go deleteAll (guarded revision). -/
def deleteAll {π ρ σ : Type} (g : Guard π) (sto : Storage ρ σ) (kind : String)
    (params : π) (st : σ) : HandlerResult ρ σ :=
  match authenticateAndAuthorize g ActionDeleteAll kind params with
  | some denial => ⟨denial.1, denial.2, false, st⟩
  | Option.none =>
    let r := sto.deleteAll kind st
    ⟨r.1.statusCode, ⟨r.1.errorMessage, "", Option.none⟩, true, r.2⟩

/-- api.go del (guarded revision; named del because delete is a Go
built-in). -/
def del {π ρ σ : Type} (g : Guard π) (sto : Storage ρ σ) (kind id : String)
    (params : π) (st : σ) : HandlerResult ρ σ :=
  match authenticateAndAuthorize g ActionDelete kind params with
  | some denial => ⟨denial.1, denial.2, false, st⟩
  | Option.none =>
    let r := sto.delete kind id st
    ⟨r.1.statusCode, ⟨r.1.errorMessage, "", Option.none⟩, true, r.2⟩

/-! ### The NewAPI revision of api.go (StorageError-based handlers) -/

namespace V3

/-- api.go get (NewAPI revision): switches on the StorageError returned
by s.Get — KindNotFound yields 404 "kind not found", ResourceNotFound
yields 404 "resource not found", InternalError yields 500 "storage
failure"; otherwise the resource is encoded with the implied 200. The
storage's Get is passed as a function over the backend state σ. -/
def get {ρ σ : Type} (stoGet : String → String → σ → Option ρ × StorageError)
    (kind id : String) (st : σ) : Nat × ApiResponse ρ :=
  let r := stoGet kind id st
  match r.2 with
  | StorageError.kindNotFound => (404, ⟨"kind not found", "", Option.none⟩)
  | StorageError.resourceNotFound => (404, ⟨"resource not found", "", Option.none⟩)
  | StorageError.internalError => (500, ⟨"storage failure", "", Option.none⟩)
  | _ => (200, ⟨"", "", r.1⟩)

end V3

/-! ### OPTIONS handlers and their routing

Each OPTIONS handler only adds Allow headers and writes 200; it takes
no storage and no guard (its type shows neither can be invoked). The
pair is (status, Allow values in the order added). -/

/-- The two path shapes of the API. -/
inductive PathShape
  | collection
  | resource
deriving DecidableEq, Repr

/-- api.go optionsAll (MountAPI revision): Allow PUT, GET, DELETE,
OPTIONS. -/
def optionsAll : Nat × List String := (200, ["PUT", "GET", "DELETE", "OPTIONS"])

/-- api.go optionsOne (MountAPI revision): Allow POST, GET, DELETE,
OPTIONS. -/
def optionsOne : Nat × List String := (200, ["POST", "GET", "DELETE", "OPTIONS"])

/-- api.go optionsKind (NewAPI revision): Allow POST, GET, DELETE,
OPTIONS. -/
def optionsKind : Nat × List String := (200, ["POST", "GET", "DELETE", "OPTIONS"])

/-- api.go optionsId (NewAPI revision): Allow PUT, GET, DELETE,
OPTIONS. -/
def optionsId : Nat × List String := (200, ["PUT", "GET", "DELETE", "OPTIONS"])

/-- MountAPI's OPTIONS routing: HandleFunc("/{kind}", optionsAll) and
HandleFunc("/{kind}/{id}", optionsOne). -/
def mountAPIOptions : PathShape → Nat × List String
  | PathShape.collection => optionsAll
  | PathShape.resource => optionsOne

/-- NewAPI's OPTIONS routing: HandleFunc("/{kind}", optionsKind) and
HandleFunc("/{kind}/{id}", optionsId). -/
def newAPIOptions : PathShape → Nat × List String
  | PathShape.collection => optionsKind
  | PathShape.resource => optionsId

/-! ### NewAPI path-prefix normalization

The Go loop repeatedly tests the last byte of the string; read from the
end of the string this is structural recursion on the reversed
character list. Option.none models the out-of-range index
pathPrefix[len(pathPrefix)-1] once the string has become empty. -/

/-- The stripping loop of NewAPI on the reversed character list: while
the head (the original last character) is a slash, drop it; an empty
list means the loop condition indexes out of range. -/
def stripRev : List Char → Option (List Char)
  | [] => Option.none
  | c :: rest => if c = '/' then stripRev rest else some (c :: rest)

/-- NewAPI's loop `for pathPrefix[len(pathPrefix)-1] == '/' { ... }`
on the string itself (as a character list). -/
def stripTrailingSlashes (p : List Char) : Option (List Char) :=
  (stripRev p.reverse).map List.reverse

/-- NewAPI's path-prefix handling: if the string is shorter than 2
characters or does not start with '/', fall back to "/api"; then strip
trailing slashes. Option.none is the out-of-range panic. -/
def newAPIPath (p : List Char) : Option (List Char) :=
  let q := if p.length < 2 || p.head? ≠ some '/' then ['/', 'a', 'p', 'i'] else p
  stripTrailingSlashes q

/-! ### example/example_storage.go (second revision) -/

namespace ExampleMS

/-- example_storage.go mapStorageStatusResponse: an error string and a
status code. -/
structure MSSR where
  errorMessage : String
  statusCode : Nat
deriving DecidableEq, Repr

/-- example_storage.go collectionNotFound: "collection not found",
404. -/
def collectionNotFound : MSSR := ⟨"collection not found", 404⟩

/-- example_storage.go resourceNotFound: "resource not found", 404. -/
def resourceNotFound : MSSR := ⟨"resource not found", 404⟩

/-- example_storage.go collectionExists. -/
def collectionExists {α : Type} (data : MapData α) (collection : String) : Bool :=
  (alLookup data collection).isSome

/-- example_storage.go resourceExists: false both when the collection
is missing and when the id is missing within it. -/
def resourceExists {α : Type} (data : MapData α) (collection id : String) :
    Option α × Bool :=
  match alLookup data collection with
  | Option.none => (Option.none, false)
  | some m =>
    match alLookup m id with
    | Option.none => (Option.none, false)
    | some r => (some r, true)

/-- example_storage.go Get: when resourceExists reports false — which
happens for an unknown collection as well as for an unknown id — it
returns resourceNotFound; otherwise the resource with 200. -/
def Get {α : Type} (data : MapData α) (collection id : String) : Option α × MSSR :=
  let r := resourceExists data collection id
  if !r.2 then (Option.none, resourceNotFound)
  else (r.1, ⟨"", 200⟩)

end ExampleMS

/-! ### Test fixtures for the witnesses -/

/-- A guard that refuses to authenticate every request. -/
def denyAuthnGuard : Guard Unit :=
  ⟨fun _ => (false, "", "who are you"), fun _ _ _ => (true, "")⟩

/-- A guard that authenticates every request but authorizes nothing. -/
def denyAuthzGuard : Guard Unit :=
  ⟨fun _ => (true, "client", ""), fun _ _ _ => (false, "not allowed")⟩

/-- A storage stub over Nat resources and a Unit state. -/
def stubStorage : Storage Nat Unit where
  create := fun _ _ st => (("", ⟨201, ""⟩), st)
  get := fun _ _ _ => (Option.none, ⟨200, ""⟩)
  getAll := fun _ _ => ([], ⟨200, ""⟩)
  update := fun _ _ _ st => (⟨200, ""⟩, st)
  delete := fun _ _ st => (⟨200, ""⟩, st)
  deleteAll := fun _ st => (⟨200, ""⟩, st)

/-! ### Claims -/

/-- C1: in the guarded dispatcher, a request the guard refuses to
authenticate is answered 401 with an envelope holding only the error
message and no Storage method is invoked (state unchanged,
storageCalled false); a request that authenticates but whose action the
guard refuses to authorize is answered 403 likewise, for each of the
six handlers. -/
theorem c1_guard_denial_short_circuits {π ρ σ : Type} (g : Guard π) (sto : Storage ρ σ)
    (kind id : String) (params : π) (body : Option ρ) (st : σ) :
    ((g.authenticate params).1 = false →
      (create g sto kind params body st =
          ⟨401, ⟨(g.authenticate params).2.2, "", Option.none⟩, false, st⟩ ∧
        getAll g sto kind params st =
          ⟨401, ⟨(g.authenticate params).2.2, "", Option.none⟩, false, st⟩ ∧
        get g sto kind id params st =
          ⟨401, ⟨(g.authenticate params).2.2, "", Option.none⟩, false, st⟩ ∧
        update g sto kind id params body st =
          ⟨401, ⟨(g.authenticate params).2.2, "", Option.none⟩, false, st⟩ ∧
        deleteAll g sto kind params st =
          ⟨401, ⟨(g.authenticate params).2.2, "", Option.none⟩, false, st⟩ ∧
        del g sto kind id params st =
          ⟨401, ⟨(g.authenticate params).2.2, "", Option.none⟩, false, st⟩)) ∧
    ((g.authenticate params).1 = true →
      (((g.authorize (g.authenticate params).2.1 ActionCreate kind).1 = false →
          create g sto kind params body st =
            ⟨403, ⟨(g.authorize (g.authenticate params).2.1 ActionCreate kind).2, "",
              Option.none⟩, false, st⟩) ∧
        ((g.authorize (g.authenticate params).2.1 ActionGetAll kind).1 = false →
          getAll g sto kind params st =
            ⟨403, ⟨(g.authorize (g.authenticate params).2.1 ActionGetAll kind).2, "",
              Option.none⟩, false, st⟩) ∧
        ((g.authorize (g.authenticate params).2.1 ActionGet kind).1 = false →
          get g sto kind id params st =
            ⟨403, ⟨(g.authorize (g.authenticate params).2.1 ActionGet kind).2, "",
              Option.none⟩, false, st⟩) ∧
        ((g.authorize (g.authenticate params).2.1 ActionUpdate kind).1 = false →
          update g sto kind id params body st =
            ⟨403, ⟨(g.authorize (g.authenticate params).2.1 ActionUpdate kind).2, "",
              Option.none⟩, false, st⟩) ∧
        ((g.authorize (g.authenticate params).2.1 ActionDeleteAll kind).1 = false →
          deleteAll g sto kind params st =
            ⟨403, ⟨(g.authorize (g.authenticate params).2.1 ActionDeleteAll kind).2, "",
              Option.none⟩, false, st⟩) ∧
        ((g.authorize (g.authenticate params).2.1 ActionDelete kind).1 = false →
          del g sto kind id params st =
            ⟨403, ⟨(g.authorize (g.authenticate params).2.1 ActionDelete kind).2, "",
              Option.none⟩, false, st⟩))) := by
  refine ⟨fun h => ?_, fun h1 => ?_⟩
  · refine ⟨?_, ?_, ?_, ?_, ?_, ?_⟩ <;>
      simp [create, getAll, get, update, deleteAll, del, authenticateAndAuthorize, h]
  · refine ⟨fun h2 => ?_, fun h2 => ?_, fun h2 => ?_, fun h2 => ?_, fun h2 => ?_,
      fun h2 => ?_⟩ <;>
      simp [create, getAll, get, update, deleteAll, del, authenticateAndAuthorize, h1, h2]

/-- C1 witness: a guard denying authentication makes create answer 401
without touching storage, and a guard denying authorization makes del
answer 403 without touching storage. -/
theorem c1_guard_denial_short_circuits_witness :
    (denyAuthnGuard.authenticate ()).1 = false ∧
    create denyAuthnGuard stubStorage "artists" () (some 1) () =
      ⟨401, ⟨"who are you", "", Option.none⟩, false, ()⟩ ∧
    (denyAuthzGuard.authenticate ()).1 = true ∧
    del denyAuthzGuard stubStorage "artists" "1" () () =
      ⟨403, ⟨"not allowed", "", Option.none⟩, false, ()⟩ := by
  refine ⟨rfl, ?_, rfl, ?_⟩
  · exact ((c1_guard_denial_short_circuits denyAuthnGuard stubStorage "artists" "1" ()
      (some 1) ()).1 rfl).1
  · exact (((c1_guard_denial_short_circuits denyAuthzGuard stubStorage "artists" "1" ()
      (some 1) ()).2 rfl).2.2.2.2.2) rfl

/-- C2: the claim says Create on an unregistered collection reports
KindNotFound (404 collection not found) like the five other MapStorage
operations. The five other operations do, but Create's bare return
leaves the named error at its zero value None, so the dispatcher treats
the call as a success: the code contradicts the repository's own README
and the KindNotFound arm of the create handler. Evaluation at the
failing input (no collection registered). -/
theorem c2_create_unknown_collection_reports_no_error :
    MapStorage.Create (0 : Int) "artists" (1 : Nat) ([] : MapData Nat) =
      (("", StorageError.none), []) ∧
    StorageError.none ≠ StorageError.kindNotFound ∧
    MapStorage.Get "artists" "x" ([] : MapData Nat) =
      (Option.none, StorageError.kindNotFound) ∧
    MapStorage.GetAll "artists" ([] : MapData Nat) = ([], StorageError.kindNotFound) ∧
    MapStorage.Update "artists" "x" (1 : Nat) [] = (StorageError.kindNotFound, []) ∧
    MapStorage.Delete "artists" "x" ([] : MapData Nat) = (StorageError.kindNotFound, []) ∧
    MapStorage.DeleteAll "artists" ([] : MapData Nat) = (StorageError.kindNotFound, []) := by
  refine ⟨rfl, by decide, rfl, rfl, rfl, rfl, rfl⟩

/-- C3: in the guarded dispatcher, a Create or Update request whose
body is not decodable JSON is answered 400 "malformed json" with no
Storage method invoked and the backend state unchanged, whatever the
backend and whatever the collection (so never a 500). -/
theorem c3_malformed_json_yields_400 {π ρ σ : Type} (g : Guard π) (sto : Storage ρ σ)
    (kind id : String) (params : π) (st : σ)
    (hA : (g.authenticate params).1 = true)
    (hzC : (g.authorize (g.authenticate params).2.1 ActionCreate kind).1 = true)
    (hzU : (g.authorize (g.authenticate params).2.1 ActionUpdate kind).1 = true) :
    create g sto kind params Option.none st =
      ⟨400, ⟨"malformed json", "", Option.none⟩, false, st⟩ ∧
    update g sto kind id params Option.none st =
      ⟨400, ⟨"malformed json", "", Option.none⟩, false, st⟩ := by
  constructor <;> simp [create, update, authenticateAndAuthorize, hA, hzC, hzU]

/-- C3 witness: with the default guard and the stub backend, an
undecodable body on create and update yields 400 "malformed json"
without a storage call. -/
theorem c3_malformed_json_yields_400_witness :
    create (defaultGuard Unit) stubStorage "artists" () Option.none () =
      ⟨400, ⟨"malformed json", "", Option.none⟩, false, ()⟩ ∧
    update (defaultGuard Unit) stubStorage "artists" "1" () Option.none () =
      ⟨400, ⟨"malformed json", "", Option.none⟩, false, ()⟩ :=
  c3_malformed_json_yields_400 (defaultGuard Unit) stubStorage "artists" "1" () ()
    rfl rfl rfl

/-- C4: on a registered collection, Create succeeds (error None) with
the generated id, and an immediate Get of that id returns exactly the
submitted payload with no error. -/
theorem c4_create_get_round_trip {α : Type} (now : Int) (kind : String) (r : α)
    (data : MapData α) (m : List (String × α)) (h : alLookup data kind = some m) :
    (MapStorage.Create now kind r data).1.2 = StorageError.none ∧
    (MapStorage.Create now kind r data).1.1 = toString now ∧
    MapStorage.Get kind (MapStorage.Create now kind r data).1.1
        (MapStorage.Create now kind r data).2 = (some r, StorageError.none) := by
  simp [MapStorage.Create, MapStorage.Get, h, alLookup_alInsert_self]

/-- C4 witness: creating resource 42 in the registered collection
"artists" and reading the returned id back yields 42. -/
theorem c4_create_get_round_trip_witness :
    (MapStorage.Create 7 "artists" (42 : Nat) [("artists", [])]).1.2 =
      StorageError.none ∧
    MapStorage.Get "artists" (MapStorage.Create 7 "artists" (42 : Nat)
        [("artists", [])]).1.1
      (MapStorage.Create 7 "artists" (42 : Nat) [("artists", [])]).2 =
      (some 42, StorageError.none) :=
  ⟨(c4_create_get_round_trip 7 "artists" 42 [("artists", [])] [] rfl).1,
   (c4_create_get_round_trip 7 "artists" 42 [("artists", [])] [] rfl).2.2⟩

/-- C5: on a registered collection, DeleteAll succeeds (error None),
the collection still exists afterwards (as the empty map), GetAll then
returns the empty sequence with no error, and a second DeleteAll
succeeds with the same result and leaves the state unchanged. -/
theorem c5_deleteAll_idempotent {α : Type} (kind : String) (data : MapData α)
    (m : List (String × α)) (h : alLookup data kind = some m) :
    (MapStorage.DeleteAll kind data).1 = StorageError.none ∧
    alLookup (MapStorage.DeleteAll kind data).2 kind = some ([] : List (String × α)) ∧
    MapStorage.GetAll kind (MapStorage.DeleteAll kind data).2 =
      ([], StorageError.none) ∧
    MapStorage.DeleteAll kind (MapStorage.DeleteAll kind data).2 =
      (StorageError.none, (MapStorage.DeleteAll kind data).2) := by
  simp [MapStorage.DeleteAll, MapStorage.GetAll, h, alLookup_alInsert_self,
    alInsert_alInsert_self]

/-- C5 witness: clearing a two-resource collection leaves it existing
and empty, and a second DeleteAll is a no-op with the same result. -/
theorem c5_deleteAll_idempotent_witness :
    (MapStorage.DeleteAll "artists" [("artists", [("1", 10), ("2", 20)])]).1 =
      StorageError.none ∧
    MapStorage.GetAll "artists"
        (MapStorage.DeleteAll "artists" [("artists", [("1", (10 : Nat)), ("2", 20)])]).2 =
      ([], StorageError.none) ∧
    MapStorage.DeleteAll "artists"
        (MapStorage.DeleteAll "artists" [("artists", [("1", (10 : Nat)), ("2", 20)])]).2 =
      (StorageError.none,
        (MapStorage.DeleteAll "artists" [("artists", [("1", (10 : Nat)), ("2", 20)])]).2) :=
  ⟨(c5_deleteAll_idempotent "artists" [("artists", [("1", 10), ("2", 20)])]
      [("1", 10), ("2", 20)] rfl).1,
   (c5_deleteAll_idempotent "artists" [("artists", [("1", 10), ("2", 20)])]
      [("1", 10), ("2", 20)] rfl).2.2.1,
   (c5_deleteAll_idempotent "artists" [("artists", [("1", 10), ("2", 20)])]
      [("1", 10), ("2", 20)] rfl).2.2.2⟩

/-- C6 counterexample: the claim says a Get on an unknown collection
always carries the error message "collection not found" (or "kind not
found"). In the second example-storage revision, Get on the unknown
collection "artists" returns resourceNotFound, whose message is
"resource not found" — the same message as for an unknown id, not a
distinct one. -/
theorem c6_get_unknown_collection_counterexample :
    alLookup ([] : MapData Nat) "artists" = Option.none ∧
    ExampleMS.Get ([] : MapData Nat) "artists" "1" =
      (Option.none, ExampleMS.resourceNotFound) ∧
    ExampleMS.resourceNotFound.errorMessage = "resource not found" ∧
    ExampleMS.resourceNotFound.errorMessage ≠ "collection not found" := by
  refine ⟨rfl, rfl, rfl, by decide⟩

/-- C6 (amended): the StorageError-based get handler distinguishes the
two 404 cases — "kind not found" for an unknown collection and
"resource not found" for an unknown id, distinct messages on a shared
status code — while the second example-storage revision's Get reports
resourceNotFound ("resource not found", 404) in both failure cases. -/
theorem c6_distinct_messages_amended {α : Type} :
    (∀ (kind id : String) (data : MapData α),
        alLookup data kind = Option.none →
        V3.get MapStorage.Get kind id data =
          (404, ⟨"kind not found", "", Option.none⟩)) ∧
    (∀ (kind id : String) (data : MapData α) (m : List (String × α)),
        alLookup data kind = some m → alLookup m id = Option.none →
        V3.get MapStorage.Get kind id data =
          (404, ⟨"resource not found", "", Option.none⟩)) ∧
    ("kind not found" : String) ≠ "resource not found" ∧
    (∀ (collection id : String) (data : MapData α),
        alLookup data collection = Option.none →
        ExampleMS.Get data collection id = (Option.none, ExampleMS.resourceNotFound)) ∧
    (∀ (collection id : String) (data : MapData α) (m : List (String × α)),
        alLookup data collection = some m → alLookup m id = Option.none →
        ExampleMS.Get data collection id = (Option.none, ExampleMS.resourceNotFound)) := by
  refine ⟨fun kind id data h => ?_, fun kind id data m h h2 => ?_, by decide,
    fun collection id data h => ?_, fun collection id data m h h2 => ?_⟩
  · simp [V3.get, MapStorage.Get, h]
  · simp [V3.get, MapStorage.Get, h, h2]
  · simp [ExampleMS.Get, ExampleMS.resourceExists, h]
  · simp [ExampleMS.Get, ExampleMS.resourceExists, h, h2]

/-- C6 witness: concrete runs of the amended statement — the dispatcher
over MapStorage on an unknown kind, on a known kind with an unknown id,
and the example storage on a known collection with an unknown id. -/
theorem c6_distinct_messages_amended_witness :
    V3.get MapStorage.Get "artists" "1" ([] : MapData Nat) =
      (404, ⟨"kind not found", "", Option.none⟩) ∧
    V3.get MapStorage.Get "artists" "1" [("artists", ([] : List (String × Nat)))] =
      (404, ⟨"resource not found", "", Option.none⟩) ∧
    ExampleMS.Get [("artists", ([] : List (String × Nat)))] "artists" "1" =
      (Option.none, ExampleMS.resourceNotFound) :=
  ⟨(c6_distinct_messages_amended).1 "artists" "1" [] rfl,
   (c6_distinct_messages_amended).2.1 "artists" "1" [("artists", [])] [] rfl rfl,
   (c6_distinct_messages_amended).2.2.2.2 "artists" "1" [("artists", [])] [] rfl rfl⟩

/-- C7 counterexample: MapStorage derives the id from the clock's Unix
second, so two Create calls that observe the same clock reading (here
second 5) on the registered collection "artists" are both assigned id
"5"; both report success and the second silently overwrites the first
resource (10 is replaced by 20). -/
theorem c7_same_second_ids_counterexample :
    (MapStorage.Create 5 "artists" (10 : Nat) [("artists", [])]).1 =
      ("5", StorageError.none) ∧
    (MapStorage.Create 5 "artists" (20 : Nat)
        (MapStorage.Create 5 "artists" (10 : Nat) [("artists", [])]).2).1 =
      ("5", StorageError.none) ∧
    MapStorage.Get "artists" "5"
        (MapStorage.Create 5 "artists" (20 : Nat)
          (MapStorage.Create 5 "artists" (10 : Nat) [("artists", [])]).2).2 =
      (some 20, StorageError.none) := by
  refine ⟨rfl, rfl, rfl⟩

/-- C7 (amended): two Create calls on the same registered collection
that observe the same clock reading are assigned the identical id, both
report success, and the second create silently overwrites the first
resource; backend-generated ids are distinct only across distinct clock
seconds. -/
theorem c7_same_second_create_collides_amended {α : Type} (now : Int) (kind : String)
    (r₁ r₂ : α) (data : MapData α) (m : List (String × α))
    (h : alLookup data kind = some m) :
    (MapStorage.Create now kind r₁ data).1.1 =
      (MapStorage.Create now kind r₂ (MapStorage.Create now kind r₁ data).2).1.1 ∧
    (MapStorage.Create now kind r₁ data).1.2 = StorageError.none ∧
    (MapStorage.Create now kind r₂ (MapStorage.Create now kind r₁ data).2).1.2 =
      StorageError.none ∧
    MapStorage.Get kind (MapStorage.Create now kind r₁ data).1.1
        (MapStorage.Create now kind r₂ (MapStorage.Create now kind r₁ data).2).2 =
      (some r₂, StorageError.none) := by
  simp [MapStorage.Create, MapStorage.Get, h, alLookup_alInsert_self,
    alInsert_alInsert_self]

/-- C7 witness: the amended statement at clock second 9 on a registered
collection with one prior resource. -/
theorem c7_same_second_create_collides_amended_witness :
    (MapStorage.Create 9 "albums" (1 : Nat) [("albums", [("0", 0)])]).1.1 =
      (MapStorage.Create 9 "albums" (2 : Nat)
        (MapStorage.Create 9 "albums" (1 : Nat) [("albums", [("0", 0)])]).2).1.1 ∧
    MapStorage.Get "albums"
        (MapStorage.Create 9 "albums" (1 : Nat) [("albums", [("0", 0)])]).1.1
        (MapStorage.Create 9 "albums" (2 : Nat)
          (MapStorage.Create 9 "albums" (1 : Nat) [("albums", [("0", 0)])]).2).2 =
      (some 2, StorageError.none) :=
  ⟨(c7_same_second_create_collides_amended 9 "albums" 1 2 [("albums", [("0", 0)])]
      [("0", 0)] rfl).1,
   (c7_same_second_create_collides_amended 9 "albums" 1 2 [("albums", [("0", 0)])]
      [("0", 0)] rfl).2.2.2⟩

/-- C8: the claim says the OPTIONS handler on /collection advertises
POST, GET, DELETE, OPTIONS and the one on /collection/id advertises
PUT, GET, DELETE, OPTIONS. In the MountAPI revisions the two handlers
are swapped (the collection shape advertises PUT and the resource shape
POST), contradicting the repository README; the NewAPI revision's
optionsKind and optionsId match the claim. Both respond 200, and the
handlers take neither a storage nor a guard. -/
theorem c8_mountapi_options_swapped :
    (mountAPIOptions PathShape.collection).1 = 200 ∧
    (mountAPIOptions PathShape.collection).2 ≠ ["POST", "GET", "DELETE", "OPTIONS"] ∧
    (mountAPIOptions PathShape.collection).2 = ["PUT", "GET", "DELETE", "OPTIONS"] ∧
    (mountAPIOptions PathShape.resource).2 ≠ ["PUT", "GET", "DELETE", "OPTIONS"] ∧
    (mountAPIOptions PathShape.resource).2 = ["POST", "GET", "DELETE", "OPTIONS"] ∧
    newAPIOptions PathShape.collection = (200, ["POST", "GET", "DELETE", "OPTIONS"]) ∧
    newAPIOptions PathShape.resource = (200, ["PUT", "GET", "DELETE", "OPTIONS"]) := by
  refine ⟨rfl, by decide, rfl, by decide, rfl, rfl, rfl⟩

/-- C9: the claim says NewAPI's path-prefix handling always terminates
normally with a non-empty '/'-prefixed result. The prefix "//" passes
the validation (length 2, starts with '/'), the stripping loop empties
the string and the loop condition then indexes out of range
(Option.none in the model) — while the documented examples do behave as
claimed. -/
theorem c9_all_slash_path_panics :
    newAPIPath ['/', '/'] = Option.none ∧
    newAPIPath ['/', 'a', 'p', 'i', '/', '/', '/'] = some ['/', 'a', 'p', 'i'] ∧
    newAPIPath [] = some ['/', 'a', 'p', 'i'] ∧
    newAPIPath ['x', 'y'] = some ['/', 'a', 'p', 'i'] := by
  refine ⟨rfl, rfl, rfl, rfl⟩

/-- C10: every MapStorage operation that reports an unsuccessful result
leaves the backing map exactly as it was. Update, Delete and DeleteAll
return the unchanged map on every non-None error; Create's
unknown-collection path also returns the unchanged map (its error is
the zero value None, see C2); Get and GetAll are reads and by type
cannot change the state. -/
theorem c10_error_paths_leave_state_unchanged {α : Type} :
    (∀ (kind id : String) (r : α) (data : MapData α),
        (MapStorage.Update kind id r data).1 ≠ StorageError.none →
        (MapStorage.Update kind id r data).2 = data) ∧
    (∀ (kind id : String) (data : MapData α),
        (MapStorage.Delete kind id data).1 ≠ StorageError.none →
        (MapStorage.Delete kind id data).2 = data) ∧
    (∀ (kind : String) (data : MapData α),
        (MapStorage.DeleteAll kind data).1 ≠ StorageError.none →
        (MapStorage.DeleteAll kind data).2 = data) ∧
    (∀ (now : Int) (kind : String) (r : α) (data : MapData α),
        alLookup data kind = Option.none →
        MapStorage.Create now kind r data = (("", StorageError.none), data)) := by
  refine ⟨fun kind id r data h => ?_, fun kind id data h => ?_, fun kind data h => ?_,
    fun now kind r data h => ?_⟩
  · cases hk : alLookup data kind with
    | none => simp [MapStorage.Update, hk]
    | some m =>
      cases hi : alLookup m id with
      | none => simp [MapStorage.Update, hk, hi]
      | some v => simp [MapStorage.Update, hk, hi] at h
  · cases hk : alLookup data kind with
    | none => simp [MapStorage.Delete, hk]
    | some m =>
      cases hi : alLookup m id with
      | none => simp [MapStorage.Delete, hk, hi]
      | some v => simp [MapStorage.Delete, hk, hi] at h
  · cases hk : alLookup data kind with
    | none => simp [MapStorage.DeleteAll, hk]
    | some m => simp [MapStorage.DeleteAll, hk] at h
  · simp [MapStorage.Create, h]

/-- C10 witness: on a map holding only the collection "a", each error
path (unknown collection for Update, Delete, DeleteAll and Create;
unknown id for none here) leaves the map unchanged. -/
theorem c10_error_paths_leave_state_unchanged_witness :
    (MapStorage.Update "b" "x" (5 : Nat) [("a", [("1", 2)])]).2 = [("a", [("1", 2)])] ∧
    (MapStorage.Delete "b" "x" ([("a", [("1", (2 : Nat))])] : MapData Nat)).2 =
      [("a", [("1", 2)])] ∧
    (MapStorage.DeleteAll "b" ([("a", [("1", (2 : Nat))])] : MapData Nat)).2 =
      [("a", [("1", 2)])] ∧
    MapStorage.Create 3 "b" (5 : Nat) [("a", [("1", 2)])] =
      (("", StorageError.none), [("a", [("1", 2)])]) :=
  ⟨(c10_error_paths_leave_state_unchanged).1 "b" "x" 5 [("a", [("1", 2)])] (by decide),
   (c10_error_paths_leave_state_unchanged).2.1 "b" "x" [("a", [("1", 2)])] (by decide),
   (c10_error_paths_leave_state_unchanged).2.2.1 "b" [("a", [("1", 2)])] (by decide),
   (c10_error_paths_leave_state_unchanged).2.2.2 3 "b" 5 [("a", [("1", 2)])] rfl⟩

end Crud
